import Mathlib

/-!
Shallow embedding of the SOCKS5 authentication subsystem (`auth.go`,
package socks5) and proofs about it.

Byte strings (Go `[]byte` and `string`, which in Go is an immutable byte
sequence) are modelled as `List Nat`; each element stands for one byte.
The read side of the duplex stream (`io.Reader`) is modelled as the finite
list of bytes the stream will deliver before it closes; the write side
(`io.Writer`) is modelled as a `WriteSide` state accumulating the bytes of
successful writes, with an environment-chosen plan of which write calls
fail.  Go's `error` results are modelled with `Except AuthError`.
-/

/-- Modelled from the spec: the single-byte protocol version identifier `V`
(constant `Version5` of the package, defined outside the shown fragment);
SOCKS protocol version 5. -/
def Version5 : Nat := 5

/-- Modelled from the spec: the "no authentication required" status code
(constant `NO_AUTHENTICATION_REQUIRED`, defined outside the shown fragment);
`0x00` per the no-auth reply format `[V, 0x00]`. -/
def NO_AUTHENTICATION_REQUIRED : Nat := 0

/-- Error taxonomy of the subsystem, as produced by the code in `auth.go`:
`readFail` models any `io` error surfaced by `io.ReadAtLeast` (short read /
closed stream), `writeFail` any error returned by `out.Write`,
`userNotExist u` the typed `UserNotExist{username: u}` error, and
`badPassword u` the `fmt.Errorf("user %s has bad password", username)`
error of `MemoryStore.Validate`. -/
inductive AuthError where
  | readFail : AuthError
  | writeFail : AuthError
  | userNotExist : List Nat → AuthError
  | badPassword : List Nat → AuthError
deriving DecidableEq

/-- Write side of the stream: `written` is the concatenation of all bytes
accepted so far; `failures` is the environment's plan for the outcome of the
next write calls (`true` = the call succeeds; an exhausted plan means all
further writes succeed). -/
structure WriteSide where
  written : List Nat
  failures : List Bool
deriving DecidableEq

/-- Outcome of the next write call according to the writer's plan. -/
def WriteSide.nextOk (w : WriteSide) : Bool :=
  match w.failures with
  | [] => true
  | b :: _ => b

/-- Models one call `out.Write(bs)`: on success the bytes are appended to
`written` and `true` is returned; on a planned failure nothing is appended
and `false` is returned (the Go code only inspects the returned error). -/
def WriteSide.doWrite (w : WriteSide) (bs : List Nat) : WriteSide × Bool :=
  match w.failures with
  | [] => ({ written := w.written ++ bs, failures := [] }, true)
  | b :: rest =>
    if b then ({ written := w.written ++ bs, failures := rest }, true)
    else ({ written := w.written, failures := rest }, false)

/-- Models `io.ReadAtLeast(in, buf, len(buf))` with `len(buf) = n` on a
finite stream `s`: it succeeds exactly when the stream still holds at least
`n` bytes, returning the `n` bytes read and the remaining stream; with
`n = 0` it succeeds immediately without touching the stream, as Go's
`ReadAtLeast` does when `min = 0`.  Any shortfall is an `io` error
(`EOF` / `ErrUnexpectedEOF`), modelled as `readFail`. -/
def readAtLeast (s : List Nat) (n : Nat) : Except AuthError (List Nat × List Nat) :=
  if n ≤ s.length then .ok (s.take n, s.drop n) else .error .readFail

/-- Embedding of `UserPwdAuth.ReadUserPwd` (auth.go lines 76–103): read a
two-byte field `ulen`, use `ulen[1]` as the username length, read that many
username bytes, read a one-byte field `plen`, read `plen[0]` password bytes,
and return username and password verbatim. -/
def ReadUserPwd (s : List Nat) : Except AuthError (List Nat × List Nat) := do
  let (ulen, s1) ← readAtLeast s 2
  let (uname, s2) ← readAtLeast s1 (ulen.getD 1 0)
  let (plen, s3) ← readAtLeast s2 1
  let (passwd, _) ← readAtLeast s3 (plen.getD 0 0)
  return (uname, passwd)

/-- Lookup in the association list modelling the Go map `Users`
(`map[string][]byte`): the value stored under key `k`, if any. -/
def mapLookup (l : List (List Nat × List Nat)) (k : List Nat) : Option (List Nat) :=
  match l with
  | [] => none
  | (k', v) :: rest => if k' = k then some v else mapLookup rest k

/-- Removal of key `k`, modelling Go's `delete(m, k)` (removes every
binding of `k`; a well-formed map has at most one). -/
def mapErase (l : List (List Nat × List Nat)) (k : List Nat) : List (List Nat × List Nat) :=
  match l with
  | [] => []
  | (k', v) :: rest => if k' = k then mapErase rest k else (k', v) :: mapErase rest k

/-- Assignment `m[k] = v`, modelling Go map assignment: `k` becomes bound
to exactly `v` and every other key keeps its binding. -/
def mapInsert (l : List (List Nat × List Nat)) (k : List Nat) (v : List Nat) :
    List (List Nat × List Nat) :=
  (k, v) :: mapErase l k

/-- Embedding of `MemoryStore` (auth.go lines 112–117): the `Users` map,
the construction-time secret `algoSecret`, and the embedded `hash.Hash`.
Since the code never calls `Write` or `Reset` on the hash, its internal
state is fixed; `hashSum` is the digest of that fixed state, the byte
sequence that `Hash.Sum` appends to its argument.  The `sync.Mutex` field
has no sequential content and is not modelled. -/
structure MemoryStore where
  Users : List (List Nat × List Nat)
  algoSecret : List Nat
  hashSum : List Nat
deriving DecidableEq

/-- Models Go's `hash.Hash.Sum(b)`: per the `hash` package contract it
"appends the current hash to `b` and returns the resulting slice" — it does
NOT hash `b`.  With the store's hash state fixed, `Sum b = b ++ hashSum`. -/
def MemoryStore.Sum (m : MemoryStore) (b : List Nat) : List Nat :=
  b ++ m.hashSum

/-- Embedding of `MemoryStore.Set` (auth.go lines 120–128): builds the
buffer `password + algoSecret`, computes `cryptPasswd := Hash.Sum(buffer)`,
and assigns `Users[username] = cryptPasswd`.  The Go method always returns
`nil`, so only the new store state is returned. -/
def MemoryStore.set (m : MemoryStore) (username password : List Nat) : MemoryStore :=
  let cryptPasswd := m.Sum (password ++ m.algoSecret)
  { m with Users := mapInsert m.Users username cryptPasswd }

/-- Embedding of `MemoryStore.Del` (auth.go lines 141–150): fails with
`UserNotExist{username}` when the map holds no entry for `username`,
otherwise deletes the entry. -/
def MemoryStore.del (m : MemoryStore) (username : List Nat) :
    Except AuthError MemoryStore :=
  match mapLookup m.Users username with
  | none => .error (.userNotExist username)
  | some _ => .ok { m with Users := mapErase m.Users username }

/-- Embedding of `MemoryStore.Validate` (auth.go lines 153–167): fails with
`UserNotExist{username}` when no entry exists; otherwise recomputes
`Hash.Sum(password + algoSecret)` and compares it byte-for-byte
(`bytes.Equal`) with the stored value, failing with the bad-password error
on mismatch and succeeding otherwise. -/
def MemoryStore.validate (m : MemoryStore) (username password : List Nat) :
    Except AuthError Unit :=
  match mapLookup m.Users username with
  | none => .error (.userNotExist username)
  | some stored =>
    if m.Sum (password ++ m.algoSecret) = stored then .ok ()
    else .error (.badPassword username)

/-- Embedding of `NoAuth.Authenticate` (auth.go lines 20–34): writes the
fixed reply `[Version5, NO_AUTHENTICATION_REQUIRED]` to the write side and
returns the write's error, never touching the read side `s`. -/
def NoAuth.Authenticate (s : List Nat) (w : WriteSide) : WriteSide × Except AuthError Unit :=
  let (w1, ok1) := w.doWrite [Version5, NO_AUTHENTICATION_REQUIRED]
  if ok1 then (w1, .ok ()) else (w1, .error .writeFail)

/-- Embedding of `UserPwdAuth.Authenticate` (auth.go lines 41–65): parse
the handshake with `ReadUserPwd`, propagating its error unchanged; validate
the credentials against the store; on validation failure write the reply
`[Version5, 1]` and return the validation error `err` — the Go code returns
`err` whether or not that write failed (`if err1 != nil { return err }` then
`return err`), so the write's success flag is discarded; on validation
success write `[Version5, 0]` and return that write's error, or success. -/
def UserPwdAuth.Authenticate (m : MemoryStore) (s : List Nat) (w : WriteSide) :
    WriteSide × Except AuthError Unit :=
  match ReadUserPwd s with
  | .error e => (w, .error e)
  | .ok (uname, passwd) =>
    match m.validate uname passwd with
    | .error e =>
      let (w1, _ok1) := w.doWrite [Version5, 1]
      (w1, .error e)
    | .ok _ =>
      let (w1, ok1) := w.doWrite [Version5, 0]
      if ok1 then (w1, .ok ()) else (w1, .error .writeFail)

/-! ## Helper lemmas about the map model and the reader -/

theorem mapLookup_mapErase_self (l : List (List Nat × List Nat)) (k : List Nat) :
    mapLookup (mapErase l k) k = none := by
  induction l with
  | nil => rfl
  | cons p rest ih =>
    obtain ⟨k', v⟩ := p
    by_cases h : k' = k
    · simp [mapErase, h, ih]
    · simp [mapErase, mapLookup, h, ih]

theorem mapLookup_mapInsert_self (l : List (List Nat × List Nat)) (k v : List Nat) :
    mapLookup (mapInsert l k v) k = some v := by
  simp [mapInsert, mapLookup]

theorem readAtLeast_exact (a b : List Nat) :
    readAtLeast (a ++ b) a.length = .ok (a, b) := by
  simp [readAtLeast, List.length_append, Nat.le_add_right, List.take_left, List.drop_left]

theorem ReadUserPwd_ok (v : Nat) (uname passwd rest : List Nat) :
    ReadUserPwd (v :: uname.length :: (uname ++ passwd.length :: (passwd ++ rest))) =
      .ok (uname, passwd) := by
  have h1 : readAtLeast (v :: uname.length :: (uname ++ passwd.length :: (passwd ++ rest))) 2 =
      .ok ([v, uname.length], uname ++ passwd.length :: (passwd ++ rest)) :=
    readAtLeast_exact [v, uname.length] _
  have h2 : readAtLeast (uname ++ passwd.length :: (passwd ++ rest)) uname.length =
      .ok (uname, passwd.length :: (passwd ++ rest)) := readAtLeast_exact uname _
  have h3 : readAtLeast (passwd.length :: (passwd ++ rest)) 1 =
      .ok ([passwd.length], passwd ++ rest) := readAtLeast_exact [passwd.length] _
  have h4 : readAtLeast (passwd ++ rest) passwd.length = .ok (passwd, rest) :=
    readAtLeast_exact passwd _
  simp [ReadUserPwd, h1, h2, h3, h4, bind, Except.bind, Functor.map, Except.map, List.getD,
    pure, Except.pure]

/-! ## Claim theorems -/

/-- C1: the claim states that after `MemoryStore.Set(username, password)` the
stored value is a one-way keyed digest of the password and never contains the
plaintext.  The code in fact stores `Hash.Sum(password + algoSecret)`, and Go's
`Hash.Sum` appends the digest to its argument instead of hashing it, so the
stored value is `password ++ algoSecret ++ hashSum`: it begins with the
plaintext password.  This theorem evaluates the code on every input and
exhibits the plaintext prefix. -/
theorem C1_set_stores_plaintext (m : MemoryStore) (username password : List Nat) :
    mapLookup (m.set username password).Users username =
      some (password ++ (m.algoSecret ++ m.hashSum)) := by
  simp [MemoryStore.set, MemoryStore.Sum, mapLookup_mapInsert_self, List.append_assoc]

/-- C2: `ReadUserPwd` reads a two-byte first field and uses only its second
byte as the username length, then exactly that many username bytes, then a
one-byte password-length field, then exactly that many password bytes; the
username and password bytes are returned verbatim. -/
theorem C2_ReadUserPwd_spec (v l p : Nat) (uname passwd rest : List Nat)
    (hu : uname.length = l) (hp : passwd.length = p) :
    ReadUserPwd (v :: l :: (uname ++ p :: (passwd ++ rest))) = .ok (uname, passwd) := by
  subst hu; subst hp
  exact ReadUserPwd_ok v uname passwd rest

/-- Witness for C2 at a concrete handshake: username `[97, 98]` of declared
length 2, password `[120]` of declared length 1, one trailing byte. -/
theorem C2_witness :
    ReadUserPwd [5, 2, 97, 98, 1, 120, 99] = .ok ([97, 98], [120]) ∧
    ([97, 98] : List Nat).length = 2 ∧ ([120] : List Nat).length = 1 :=
  ⟨C2_ReadUserPwd_spec 5 2 1 [97, 98] [120] [99] rfl rfl, rfl, rfl⟩

/-- C3: after `Set(u, p)`, `Validate(u, p)` succeeds, and `Validate(u, p')`
with any `p' ≠ p` fails with the bad-password error, because `Validate`
recomputes `Hash.Sum(password + algoSecret)` and compares byte-for-byte
against the stored value. -/
theorem C3_validate_after_set (m : MemoryStore) (u p p' : List Nat) :
    (m.set u p).validate u p = .ok () ∧
    (p' ≠ p → (m.set u p).validate u p' = .error (.badPassword u)) := by
  constructor
  · simp [MemoryStore.set, MemoryStore.validate, MemoryStore.Sum, mapLookup_mapInsert_self]
  · intro hne
    simp only [MemoryStore.set, MemoryStore.validate, MemoryStore.Sum,
      mapLookup_mapInsert_self]
    rw [if_neg]
    intro hcontra
    exact hne (List.append_cancel_right (List.append_cancel_right hcontra))

/-- Witness for C3: a concrete store, `Set` with password `[1, 2]`, validated
against `[1, 2]` (success) and against the different password `[3]`
(bad-password failure). -/
theorem C3_witness :
    MemoryStore.validate (MemoryStore.set ⟨[], [9], [7]⟩ [97] [1, 2]) [97] [1, 2] = .ok () ∧
    MemoryStore.validate (MemoryStore.set ⟨[], [9], [7]⟩ [97] [1, 2]) [97] [3] =
      .error (.badPassword [97]) :=
  ⟨(C3_validate_after_set ⟨[], [9], [7]⟩ [97] [1, 2] [3]).1,
   (C3_validate_after_set ⟨[], [9], [7]⟩ [97] [1, 2] [3]).2 (by decide)⟩

/-- C4: `NoAuth.Authenticate` never reads from the read side (its result is
the same for every stream content), and when the single write succeeds it has
written exactly the two bytes `[Version5, NO_AUTHENTICATION_REQUIRED]` and
returns success. -/
theorem C4_NoAuth_spec (s s' : List Nat) (w : WriteSide) :
    NoAuth.Authenticate s w = NoAuth.Authenticate s' w ∧
    (w.nextOk = true →
      NoAuth.Authenticate s w =
        ({ written := w.written ++ [Version5, NO_AUTHENTICATION_REQUIRED],
           failures := w.failures.tail }, .ok ())) := by
  constructor
  · rfl
  · intro h
    unfold NoAuth.Authenticate WriteSide.doWrite
    rcases hf : w.failures with _ | ⟨b, rest⟩
    · simp
    · simp only [WriteSide.nextOk, hf] at h
      simp [h]

/-- Witness for C4: on an empty write plan (all writes succeed) with a
non-empty read side, `NoAuth.Authenticate` returns success having written
exactly `[5, 0]`. -/
theorem C4_witness :
    NoAuth.Authenticate [1, 2, 3] ⟨[], []⟩ = (⟨[5, 0], []⟩, .ok ()) :=
  (C4_NoAuth_spec [1, 2, 3] [] ⟨[], []⟩).2 rfl

/-- C5: for a username with no stored entry, `Validate` and `Del` both fail
with the `UserNotExist` error carrying that username; and `Set(u, p)` then
`Del(u)` then `Validate(u, p)` fails with `UserNotExist`, the entry being
fully removed. -/
theorem C5_missing_user (m : MemoryStore) (u p : List Nat)
    (h : mapLookup m.Users u = none) :
    m.validate u p = .error (.userNotExist u) ∧
    m.del u = .error (.userNotExist u) ∧
    ∃ m', (m.set u p).del u = .ok m' ∧ m'.validate u p = .error (.userNotExist u) := by
  refine ⟨by simp [MemoryStore.validate, h], by simp [MemoryStore.del, h], ?_⟩
  refine ⟨{ m with Users := mapErase (mapInsert m.Users u (m.Sum (p ++ m.algoSecret))) u },
    ?_, ?_⟩
  · simp [MemoryStore.del, MemoryStore.set, mapLookup_mapInsert_self]
  · simp [MemoryStore.validate, mapLookup_mapErase_self]

/-- Witness for C5: the empty store holds no entry for `[98]`, so `Del`
fails with `UserNotExist [98]`. -/
theorem C5_witness :
    MemoryStore.del ⟨[], [9], [7]⟩ [98] = .error (.userNotExist [98]) :=
  (C5_missing_user ⟨[], [9], [7]⟩ [98] [120] rfl).2.1

/-- C6: when the stream closes after delivering only the first two-byte
field (the read the code uses for the username-length information),
`ReadUserPwd` fails with a transport error, and `Authenticate` returns that
transport failure with the write side untouched: no reply byte is written. -/
theorem C6_short_stream (m : MemoryStore) (s : List Nat) (w : WriteSide)
    (h : s.length = 2) :
    ReadUserPwd s = .error .readFail ∧
    UserPwdAuth.Authenticate m s w = (w, .error .readFail) := by
  have hs : ∃ a b, s = [a, b] := by
    rcases s with _ | ⟨a, _ | ⟨b, _ | ⟨c, t⟩⟩⟩
    · simp at h
    · simp at h
    · exact ⟨a, b, rfl⟩
    · simp at h
  obtain ⟨a, b, rfl⟩ := hs
  have hr : ReadUserPwd [a, b] = .error .readFail := by
    cases b
    · rfl
    · rfl
  exact ⟨hr, by simp [UserPwdAuth.Authenticate, hr]⟩

/-- Witness for C6: the two-byte stream `[5, 3]` (version byte, declared
username length 3, then closed) makes `Authenticate` fail with the transport
error and write nothing. -/
theorem C6_witness :
    UserPwdAuth.Authenticate ⟨[], [9], [7]⟩ [5, 3] ⟨[], []⟩ =
      (⟨[], []⟩, .error .readFail) :=
  (C6_short_stream ⟨[], [9], [7]⟩ [5, 3] ⟨[], []⟩ rfl).2

/-- C7 counterexample: the claim says a handshake declaring a zero username
length is classified as a transport/protocol failure rather than proceeding
to credential validation.  On the concrete handshake `[5, 0, 3, 112, 113,
114]` (declared username length 0, password `[112, 113, 114]`),
`ReadUserPwd` succeeds with the empty username, and `Authenticate` on the
empty store proceeds to credential validation and returns the store's
`UserNotExist` error — a credential failure, not a transport one. -/
theorem C7_counterexample :
    ReadUserPwd [5, 0, 3, 112, 113, 114] = .ok ([], [112, 113, 114]) ∧
    (UserPwdAuth.Authenticate ⟨[], [9], [7]⟩ [5, 0, 3, 112, 113, 114] ⟨[], []⟩).2 =
      .error (.userNotExist []) := by
  constructor
  · rfl
  · rfl

/-- C7 amended: `ReadUserPwd` performs no validation of the declared
lengths: a declared username length of zero is accepted, yielding the empty
username, and a declared password length of zero is accepted, yielding the
empty password; parsing succeeds and `Authenticate` proceeds to credential
validation. -/
theorem C7_zero_length_accepted (v p0 l : Nat) (uname passwd rest : List Nat)
    (hu : uname.length = l) (hp : passwd.length = p0) :
    ReadUserPwd (v :: 0 :: p0 :: (passwd ++ rest)) = .ok ([], passwd) ∧
    ReadUserPwd (v :: l :: (uname ++ 0 :: rest)) = .ok (uname, []) := by
  subst hu; subst hp
  exact ⟨ReadUserPwd_ok v [] passwd rest, ReadUserPwd_ok v uname [] rest⟩

/-- Witness for C7's amended claim at concrete handshakes with a zero
username length and a zero password length respectively. -/
theorem C7_witness :
    ReadUserPwd [5, 0, 2, 112, 113] = .ok ([], [112, 113]) ∧
    ReadUserPwd [5, 2, 97, 98, 0] = .ok ([97, 98], []) :=
  ⟨(C7_zero_length_accepted 5 2 0 [] [112, 113] [] rfl rfl).1,
   (C7_zero_length_accepted 5 0 2 [97, 98] [] [] rfl rfl).2⟩

/-- C8 counterexample: the claim says every write failure — including the
failure of the write that sends the failure reply after `Validate` rejects —
surfaces a transport failure.  On the empty store with handshake
`[5, 1, 98, 1, 120]` (username `[98]`, password `[120]`) and a write side
whose first write fails, `Validate` rejects with `UserNotExist [98]`, the
failure-reply write fails, and `Authenticate` returns the validation error,
not the write's transport error: the Go code returns `err` on both branches
of `if err1 != nil`, discarding `err1`. -/
theorem C8_counterexample :
    (UserPwdAuth.Authenticate ⟨[], [9], [7]⟩ [5, 1, 98, 1, 120] ⟨[], [false]⟩).2 =
      .error (.userNotExist [98]) ∧
    (UserPwdAuth.Authenticate ⟨[], [9], [7]⟩ [5, 1, 98, 1, 120] ⟨[], [false]⟩).2 ≠
      .error .writeFail := by
  refine ⟨rfl, ?_⟩
  exact fun hc => AuthError.noConfusion (Except.error.inj hc)

/-- C8 amended: read failures during handshake parsing propagate unchanged
and abort the call; a store-validation failure is returned to the caller
whether or not the failure-reply write succeeds (a failure of that write is
discarded, the validation error being returned in its place); and a failure
of the success-reply write after successful validation surfaces that write's
transport error. -/
theorem C8_error_propagation (m : MemoryStore) (s : List Nat) (w : WriteSide)
    (e : AuthError) :
    (ReadUserPwd s = .error e → UserPwdAuth.Authenticate m s w = (w, .error e)) ∧
    (∀ uname passwd, ReadUserPwd s = .ok (uname, passwd) →
      m.validate uname passwd = .error e →
      (UserPwdAuth.Authenticate m s w).2 = .error e) ∧
    (∀ uname passwd, ReadUserPwd s = .ok (uname, passwd) →
      m.validate uname passwd = .ok () → w.nextOk = false →
      (UserPwdAuth.Authenticate m s w).2 = .error .writeFail) := by
  refine ⟨?_, ?_, ?_⟩
  · intro h
    simp [UserPwdAuth.Authenticate, h]
  · intro uname passwd h hv
    simp [UserPwdAuth.Authenticate, h, hv]
  · intro uname passwd h hv hw
    rcases hf : w.failures with _ | ⟨b, rest⟩
    · simp [WriteSide.nextOk, hf] at hw
    · simp only [WriteSide.nextOk, hf] at hw
      simp [UserPwdAuth.Authenticate, h, hv, WriteSide.doWrite, hf, hw]

/-- Witness for C8's amended claim: a read failure on the one-byte stream
`[5]`; a validation failure returned on the empty store; and a failed
success-reply write surfacing the write error after the credentials stored
by `Set` validate successfully. -/
theorem C8_witness :
    UserPwdAuth.Authenticate ⟨[], [9], [7]⟩ [5] ⟨[], []⟩ = (⟨[], []⟩, .error .readFail) ∧
    (UserPwdAuth.Authenticate ⟨[], [9], [7]⟩ [5, 1, 98, 1, 120] ⟨[], []⟩).2 =
      .error (.userNotExist [98]) ∧
    (UserPwdAuth.Authenticate (MemoryStore.set ⟨[], [9], [7]⟩ [98] [120])
        [5, 1, 98, 1, 120] ⟨[], [false]⟩).2 = .error .writeFail :=
  ⟨(C8_error_propagation ⟨[], [9], [7]⟩ [5] ⟨[], []⟩ .readFail).1 rfl,
   (C8_error_propagation ⟨[], [9], [7]⟩ [5, 1, 98, 1, 120] ⟨[], []⟩
      (.userNotExist [98])).2.1 [98] [120] rfl rfl,
   (C8_error_propagation (MemoryStore.set ⟨[], [9], [7]⟩ [98] [120])
      [5, 1, 98, 1, 120] ⟨[], [false]⟩ (.userNotExist [98])).2.2 [98] [120] rfl rfl rfl⟩

/-- C10: two input streams that differ only in the first byte of the
two-byte field read at the start of the handshake (the sub-negotiation
version position) produce the same `ReadUserPwd` result and the same
`Authenticate` outcome, reply bytes included: that byte is read but never
inspected. -/
theorem C10_version_byte_ignored (a a' : Nat) (rest : List Nat) (m : MemoryStore)
    (w : WriteSide) :
    ReadUserPwd (a :: rest) = ReadUserPwd (a' :: rest) ∧
    UserPwdAuth.Authenticate m (a :: rest) w = UserPwdAuth.Authenticate m (a' :: rest) w := by
  have hr : ReadUserPwd (a :: rest) = ReadUserPwd (a' :: rest) := by
    rcases rest with _ | ⟨b, t⟩
    · rfl
    · have h2 : readAtLeast (a :: b :: t) 2 = .ok ([a, b], t) := readAtLeast_exact [a, b] t
      have h2' : readAtLeast (a' :: b :: t) 2 = .ok ([a', b], t) := readAtLeast_exact [a', b] t
      simp [ReadUserPwd, h2, h2', bind, Except.bind, List.getD]
  exact ⟨hr, by simp [UserPwdAuth.Authenticate, hr]⟩
